import Mathlib

/-!
Verification of the Delta Exchange adapter
(`backend` exchange-client module, `DeltaExchangeClient`).

The adapter wraps a blocking venue SDK and normalises its heterogeneous
response shapes (bare lists, `{success, result}` / `{success, error}`
envelopes) into a uniform result dictionary.  We embed the JSON-like values
the adapter manipulates as `JVal`, the relevant Python primitives
(`dict.get`, truthiness, iteration, hashability) as total Lean functions,
and each adapter method as a function from the outcome of its venue call
(`Except.error msg` when the SDK raised, `Except.ok v` when it returned
the value `v`) to the dictionary the method returns.  Exception messages
are abstracted to plain strings.

Dictionaries are association lists with string keys (JSON object keys are
strings); for the one place the source uses a venue-supplied value as a
dict key, `pyHashKey` renders non-string hashable values to strings.
-/

set_option autoImplicit false

namespace Algobot

/-- JSON-like values exchanged with the venue SDK.  Numbers are modelled
as rationals (Python ints and floats are not distinguished). -/
inductive JVal where
  | jnull : JVal
  | jbool : Bool → JVal
  | jnum : Rat → JVal
  | jstr : String → JVal
  | jlist : List JVal → JVal
  | jdict : List (String × JVal) → JVal

/-- First binding of a key in an association-list dictionary. -/
def dictGet (kvs : List (String × JVal)) (k : String) : Option JVal :=
  (kvs.find? (fun p => p.1 == k)).map (fun p => p.2)

/-- Python dict assignment `d[k] = v`: replace in place when the key is
present, append otherwise. -/
def dictSet (kvs : List (String × JVal)) (k : String) (v : JVal) :
    List (String × JVal) :=
  if kvs.any (fun p => p.1 == k) then
    kvs.map (fun p => if p.1 == k then (k, v) else p)
  else
    kvs ++ [(k, v)]

/-- The Python type name of a value, used in abstracted exception texts. -/
def pyTypeName : JVal → String
  | .jnull => "NoneType"
  | .jbool _ => "bool"
  | .jnum _ => "number"
  | .jstr _ => "str"
  | .jlist _ => "list"
  | .jdict _ => "dict"

/-- Python truthiness of a value. -/
def pyTruthy : JVal → Bool
  | .jnull => false
  | .jbool b => b
  | .jnum q => decide (q ≠ 0)
  | .jstr s => s != ""
  | .jlist xs => !xs.isEmpty
  | .jdict kvs => !kvs.isEmpty

/-- Python `v.get(k, d)`: succeeds on dictionaries, raises
`AttributeError` on anything else. -/
def pyGet (v : JVal) (k : String) (d : JVal) : Except String JVal :=
  match v with
  | .jdict kvs => Except.ok ((dictGet kvs k).getD d)
  | _ =>
      Except.error
        ("AttributeError: " ++ pyTypeName v ++ " object has no attribute get")

/-- Python iteration `for x in v`: lists yield elements, dicts yield keys,
strings yield one-character strings, everything else raises `TypeError`. -/
def pyIter (v : JVal) : Except String (List JVal) :=
  match v with
  | .jlist xs => Except.ok xs
  | .jdict kvs => Except.ok (kvs.map (fun p => JVal.jstr p.1))
  | .jstr s => Except.ok (s.toList.map (fun c => JVal.jstr (String.singleton c)))
  | _ =>
      Except.error
        ("TypeError: " ++ pyTypeName v ++ " object is not iterable")

/-- Using a value as a Python dict key: hashable scalars are rendered to
our string key type, lists and dicts raise `TypeError`. -/
def pyHashKey : JVal → Except String String
  | .jstr s => Except.ok s
  | .jbool b => Except.ok (if b then ("True") else ("False"))
  | .jnum q => Except.ok (toString q)
  | .jnull => Except.ok ("None")
  | v => Except.error ("TypeError: unhashable type: " ++ pyTypeName v)

/-- Python `v is None`. -/
def isNone : JVal → Bool
  | .jnull => true
  | _ => false

/-- The failure dictionary the adapter builds in every `except` branch:
`{'success': False, 'error': {'message': msg}}`. -/
def failureJ (msg : String) : JVal :=
  .jdict [("success", .jbool false),
          ("error", .jdict [("message", .jstr msg)])]

/-- The success dictionary the adapter builds: `{'success': True, 'result': r}`. -/
def successEnv (r : JVal) : JVal :=
  .jdict [("success", .jbool true), ("result", r)]

/-- The `try/except Exception` wrapper around every method body: a raised
exception becomes the failure dictionary carrying its message. -/
def tryWrap : Except String JVal → JVal
  | .ok v => v
  | .error e => failureJ e

/-- `self.is_connected = False` in `DeltaExchangeClient.__init__`
(src lines 15-22). -/
def init_is_connected : Bool := false

/-- `DeltaExchangeClient.test_connection` (src lines 40-59).  `conn` is the
current `is_connected` field; `resp` is the outcome of
`self._get_assets_auth()`.  Returns the boolean result paired with the new
`is_connected` value. -/
def test_connection (conn : Bool) (resp : Except String JVal) : Bool × Bool :=
  match resp with
  | .error _ => (false, conn)
  | .ok (.jlist xs) =>
      if 0 < xs.length then (true, true) else (false, conn)
  | .ok (.jdict kvs) =>
      if pyTruthy ((dictGet kvs ("success")).getD (.jbool false)) then
        (true, true)
      else (false, conn)
  | .ok _ => (false, conn)

/-- Loop body of `get_balance` (src lines 84-89): read the three balance
fields, then use the entry's `asset_symbol` as the key of the accumulated
dictionary. -/
def balance_entry_step (acc : List (String × JVal)) (balance : JVal) :
    Except String (List (String × JVal)) := do
  let b ← pyGet balance ("balance") (.jnum 0)
  let rb ← pyGet balance ("reserved_balance") (.jnum 0)
  let ab ← pyGet balance ("available_balance") (.jnum 0)
  let symV ← pyGet balance ("asset_symbol") (.jstr ("unknown"))
  let key ← pyHashKey symV
  Except.ok (dictSet acc key
    (.jdict [("balance", b), ("reserved_balance", rb),
             ("available_balance", ab)]))

/-- `DeltaExchangeClient.get_balance` (src lines 75-95) as a function of
the outcome of `self._get_balances(asset_id)`. -/
def get_balance (resp : Except String JVal) : JVal :=
  tryWrap (do
    let response ← resp
    let succ ← pyGet response ("success") (.jbool false)
    if pyTruthy succ then do
      let balancesV ← pyGet response ("result") (.jlist [])
      let balances ← pyIter balancesV
      let balance_dict ← balances.foldlM balance_entry_step []
      Except.ok (successEnv (.jdict balance_dict))
    else
      Except.ok response)

/-- `DeltaExchangeClient.get_products` (src lines 97-117) as a function of
the outcome of `self.client.get_assets(auth=False)`. -/
def get_products (resp : Except String JVal) : JVal :=
  match resp with
  | .error e => failureJ e
  | .ok (.jlist xs) => successEnv (.jlist xs)
  | .ok (.jdict kvs) =>
      if pyTruthy ((dictGet kvs ("success")).getD (.jbool false)) then
        successEnv ((dictGet kvs ("result")).getD (.jlist []))
      else failureJ ("Unable to get products")
  | .ok _ => failureJ ("Unable to get products")

/-- The arguments `place_order` forwards to
`self.client.place_order` (src lines 122-129). -/
structure OrderArgs where
  product_id : Int
  side : String
  order_type : String
  size : Int
  limit_price : Rat
deriving DecidableEq

/-- Python `int()` on a (rational) number: truncation toward zero. -/
def pyInt (q : Rat) : Int :=
  if 0 ≤ q then ⌊q⌋ else ⌈q⌉

/-- Argument construction in `place_order`: `size=int(quantity)`
(src line 127). -/
def place_order_args (product_id : Int) (side : String) (order_type : String)
    (quantity : Rat) (price : Rat) : OrderArgs :=
  ⟨product_id, side, order_type, pyInt quantity, price⟩

/-- The response-normalisation tail the source repeats verbatim in
`place_order` (lines 133-137), `get_orders` (lines 150-154),
`get_ticker` (lines 183-187) and `get_account_info` (lines 197-200):
on a truthy `success` flag rebuild a success envelope around
`response.get('result', dflt)`, otherwise return the response unchanged;
`dflt` is the literal default at each site. -/
def envelope_tail (resp : Except String JVal) (dflt : JVal) : JVal :=
  tryWrap (do
    let response ← resp
    let succ ← pyGet response ("success") (.jbool false)
    if pyTruthy succ then do
      let r ← pyGet response ("result") dflt
      Except.ok (successEnv r)
    else
      Except.ok response)

/-- `DeltaExchangeClient.place_order` (src lines 119-140): forward the
(truncated) arguments to the venue call `venue`, then normalise its
outcome with default `{}`. -/
def place_order (product_id : Int) (side : String) (quantity : Rat)
    (price : Rat) (order_type : String)
    (venue : OrderArgs → Except String JVal) : JVal :=
  envelope_tail
    (venue (place_order_args product_id side order_type quantity price))
    (.jdict [])

/-- `DeltaExchangeClient.get_orders` (src lines 142-157) as a function of
the outcome of `self.client.get_live_orders(...)`; default `[]`. -/
def get_orders (resp : Except String JVal) : JVal :=
  envelope_tail resp (.jlist [])

/-- `DeltaExchangeClient.get_account_info` (src lines 192-203) as a
function of the outcome of `self._get_balances("1")`; default `{}`.
Note the body normalises the raw response directly — it does not reuse
`get_balance`. -/
def get_account_info (resp : Except String JVal) : JVal :=
  envelope_tail resp (.jdict [])

/-- The product scan in `get_ticker` (src lines 168-173): first product
whose `symbol` field compares equal to `symbol` yields its `id`
(default `None`); no match leaves `product_id = None`.  A Python `==`
between a JSON value and a `str` is true only for an equal `str`. -/
def scan_for_product_id (products : List JVal) (symbol : String) :
    Except String JVal :=
  match products with
  | [] => Except.ok .jnull
  | product :: rest => do
      let s ← pyGet product ("symbol") .jnull
      match s with
      | .jstr t =>
          if t == symbol then pyGet product ("id") .jnull
          else scan_for_product_id rest symbol
      | _ => scan_for_product_id rest symbol

/-- `DeltaExchangeClient.get_ticker` (src lines 159-190).  `assetsResp` is
the outcome of the `get_assets(auth=False)` call made by the inner
`get_products` step; `tickerCall` is the venue ticker endpoint, applied to
the resolved product id. -/
def get_ticker (symbol : String) (assetsResp : Except String JVal)
    (tickerCall : JVal → Except String JVal) : JVal :=
  tryWrap (do
    let products_response := get_products assetsResp
    let psucc ← pyGet products_response ("success") (.jbool false)
    if !(pyTruthy psucc) then
      Except.ok products_response
    else do
      let productsV ← pyGet products_response ("result") (.jlist [])
      let products ← pyIter productsV
      let product_id ← scan_for_product_id products symbol
      if isNone product_id then
        Except.ok (failureJ ("Product not found for symbol: " ++ symbol))
      else do
        let response ← tickerCall product_id
        let succ ← pyGet response ("success") (.jbool false)
        if pyTruthy succ then do
          let ticker ← pyGet response ("result") (.jdict [])
          Except.ok (successEnv ticker)
        else
          Except.ok response)

/-- State-threaded form of `get_balance`: the method body never mentions
`self.is_connected`, so the field is passed through unchanged. -/
def get_balance_st (conn : Bool) (resp : Except String JVal) : JVal × Bool :=
  (get_balance resp, conn)

/-- State-threaded form of `get_products`; `is_connected` untouched. -/
def get_products_st (conn : Bool) (resp : Except String JVal) : JVal × Bool :=
  (get_products resp, conn)

/-- State-threaded form of `get_orders`; `is_connected` untouched. -/
def get_orders_st (conn : Bool) (resp : Except String JVal) : JVal × Bool :=
  (get_orders resp, conn)

/-- State-threaded form of `get_account_info`; `is_connected` untouched. -/
def get_account_info_st (conn : Bool) (resp : Except String JVal) : JVal × Bool :=
  (get_account_info resp, conn)

/-- State-threaded form of `place_order`; `is_connected` untouched. -/
def place_order_st (conn : Bool) (product_id : Int) (side : String)
    (quantity : Rat) (price : Rat) (order_type : String)
    (venue : OrderArgs → Except String JVal) : JVal × Bool :=
  (place_order product_id side quantity price order_type venue, conn)

/-- State-threaded form of `get_ticker`; `is_connected` untouched. -/
def get_ticker_st (conn : Bool) (symbol : String)
    (assetsResp : Except String JVal)
    (tickerCall : JVal → Except String JVal) : JVal × Bool :=
  (get_ticker symbol assetsResp tickerCall, conn)

/-- Whether a result dictionary has a populated success payload
(a `result` key). -/
def hasPayload : JVal → Bool
  | .jdict kvs => (dictGet kvs ("result")).isSome
  | _ => false

/-- Whether a result dictionary has a populated failure message
(an `error` key holding a dict with a `message` key). -/
def hasMessage : JVal → Bool
  | .jdict kvs =>
      match dictGet kvs ("error") with
      | some (.jdict ekvs) => (dictGet ekvs ("message")).isSome
      | _ => false
  | _ => false

/-- Exactly one of the success payload and failure message is populated. -/
def exactlyOne (v : JVal) : Bool :=
  xor (hasPayload v) (hasMessage v)

/-- A venue outcome whose failure envelopes (dicts with a falsy `success`
flag, which the adapter passes through unchanged) themselves carry exactly
one of payload and message. -/
def PassthroughNormalized (r : Except String JVal) : Prop :=
  ∀ kvs, r = Except.ok (.jdict kvs) →
    pyTruthy ((dictGet kvs ("success")).getD (.jbool false)) = false →
    exactlyOne (.jdict kvs) = true

/-- A well-formed venue balance entry, spec section 3: a dict carrying
`asset_symbol` and the three balance fields. -/
def mk_balance_entry (p : String × JVal × JVal × JVal) : JVal :=
  .jdict [("asset_symbol", .jstr p.1), ("balance", p.2.1),
          ("reserved_balance", p.2.2.1), ("available_balance", p.2.2.2)]

/-- One step of the mapping the spec describes for `getBalance`: key the
accumulated dictionary by the entry's asset symbol, with the three balance
fields as the value. -/
def spec_balance_step (acc : List (String × JVal))
    (p : String × JVal × JVal × JVal) : List (String × JVal) :=
  dictSet acc p.1
    (.jdict [("balance", p.2.1), ("reserved_balance", p.2.2.1),
             ("available_balance", p.2.2.2)])

/-- Spec-side description of the `getBalance` success transformation:
fold the venue's entry list into a symbol-keyed mapping. -/
def spec_balance_mapping (es : List (String × JVal × JVal × JVal)) :
    List (String × JVal) :=
  es.foldl spec_balance_step []

/-- A catalog entry carries `symbol`: it is a dict whose `symbol` field is
that string. -/
def product_has_symbol (p : JVal) (symbol : String) : Bool :=
  match p with
  | .jdict pkvs =>
      match (dictGet pkvs ("symbol")).getD .jnull with
      | .jstr t => t == symbol
      | _ => false
  | _ => false

/-- Whether a catalog entry is a dict (a product record). -/
def is_product_dict : JVal → Bool
  | .jdict _ => true
  | _ => false

/-- Whether the text of `s` contains the substring used by the spec's
not-found requirement. -/
def containsNotFound (s : String) : Bool :=
  decide (List.IsInfix (("not found").toList) s.toList)

/-- Encoding of recorded order-call arguments as a JSON value, used to
observe exactly what `place_order` forwards to the venue. -/
def encode_order_args (a : OrderArgs) : JVal :=
  .jdict [("product_id", .jnum (a.product_id : Rat)), ("side", .jstr a.side),
          ("order_type", .jstr a.order_type), ("size", .jnum (a.size : Rat)),
          ("limit_price", .jnum a.limit_price)]

/-- A recording venue stub: answers any order call with a success envelope
that carries back the exact arguments it was called with. -/
def record_venue (a : OrderArgs) : Except String JVal :=
  Except.ok (.jdict [("success", .jbool true), ("result", encode_order_args a)])

/-- Observer distinguishing results whose `result` payload is a list. -/
def resultIsList (v : JVal) : Bool :=
  match v with
  | .jdict kvs =>
      match dictGet kvs ("result") with
      | some (.jlist _) => true
      | _ => false
  | _ => false

/-! ## Reduction and normalisation lemmas -/

@[simp] theorem pyGet_jdict (kvs : List (String × JVal)) (k : String) (d : JVal) :
    pyGet (.jdict kvs) k d = Except.ok ((dictGet kvs k).getD d) := rfl

theorem envelope_tail_error (e : String) (dflt : JVal) :
    envelope_tail (Except.error e) dflt = failureJ e := rfl

theorem envelope_tail_ok_dict (kvs : List (String × JVal)) (dflt : JVal) :
    envelope_tail (Except.ok (.jdict kvs)) dflt =
      if pyTruthy ((dictGet kvs ("success")).getD (.jbool false)) then
        successEnv ((dictGet kvs ("result")).getD dflt)
      else .jdict kvs := by
  by_cases hs : pyTruthy ((dictGet kvs ("success")).getD (.jbool false))
  · simp [envelope_tail, pyGet, tryWrap, hs, bind, Except.bind]
  · simp [envelope_tail, pyGet, tryWrap, hs, bind, Except.bind]

@[simp] theorem exactlyOne_failureJ (e : String) : exactlyOne (failureJ e) = true := rfl

@[simp] theorem exactlyOne_successEnv (r : JVal) : exactlyOne (successEnv r) = true := rfl

@[simp] theorem pyGet_failureJ_success (e : String) (d : JVal) :
    pyGet (failureJ e) ("success") d = Except.ok (.jbool false) := rfl

@[simp] theorem pyGet_successEnv_success (r d : JVal) :
    pyGet (successEnv r) ("success") d = Except.ok (.jbool true) := rfl

@[simp] theorem pyGet_successEnv_result (r d : JVal) :
    pyGet (successEnv r) ("result") d = Except.ok r := rfl

theorem exactlyOne_envelope_tail (resp : Except String JVal) (dflt : JVal)
    (h : PassthroughNormalized resp) :
    exactlyOne (envelope_tail resp dflt) = true := by
  cases resp with
  | error e => exact exactlyOne_failureJ e
  | ok v =>
    cases v with
    | jdict kvs =>
        rw [envelope_tail_ok_dict]
        by_cases hs : pyTruthy ((dictGet kvs ("success")).getD (.jbool false))
        · rw [if_pos hs]; exact exactlyOne_successEnv _
        · rw [if_neg hs]
          exact h kvs rfl (by simpa using hs)
    | jnull => rfl
    | jbool b => rfl
    | jnum q => rfl
    | jstr s => rfl
    | jlist xs => rfl

theorem get_products_shape (resp : Except String JVal) :
    (∃ e, get_products resp = failureJ e) ∨
    (∃ r, get_products resp = successEnv r) := by
  cases resp with
  | error e => exact Or.inl ⟨e, rfl⟩
  | ok v =>
    cases v with
    | jlist xs => exact Or.inr ⟨.jlist xs, rfl⟩
    | jdict kvs =>
        by_cases hs : pyTruthy ((dictGet kvs ("success")).getD (.jbool false))
        · exact Or.inr ⟨(dictGet kvs ("result")).getD (.jlist []), by
            simp [get_products, hs]⟩
        · exact Or.inl ⟨"Unable to get products", by
            simp [get_products, hs]⟩
    | jnull => exact Or.inl ⟨"Unable to get products", rfl⟩
    | jbool b => exact Or.inl ⟨"Unable to get products", rfl⟩
    | jnum q => exact Or.inl ⟨"Unable to get products", rfl⟩
    | jstr s => exact Or.inl ⟨"Unable to get products", rfl⟩

theorem exactlyOne_get_products (resp : Except String JVal) :
    exactlyOne (get_products resp) = true := by
  rcases get_products_shape resp with ⟨e, hP⟩ | ⟨r, hP⟩ <;> rw [hP] <;> simp

theorem exactlyOne_get_balance (resp : Except String JVal)
    (h : PassthroughNormalized resp) :
    exactlyOne (get_balance resp) = true := by
  cases resp with
  | error e => exact exactlyOne_failureJ e
  | ok v =>
    cases v with
    | jdict kvs =>
        by_cases hs : pyTruthy ((dictGet kvs ("success")).getD (.jbool false))
        · cases h1 : pyIter ((dictGet kvs ("result")).getD (.jlist [])) with
          | error e =>
              simp [get_balance, pyGet, tryWrap, hs, h1, bind, Except.bind]
          | ok bs =>
              cases h2 : bs.foldlM balance_entry_step [] with
              | error e =>
                  simp [get_balance, pyGet, tryWrap, hs, h1, h2, bind, Except.bind]
              | ok bd =>
                  simp [get_balance, pyGet, tryWrap, hs, h1, h2, bind, Except.bind]
        · have hpass : get_balance (Except.ok (.jdict kvs)) = .jdict kvs := by
            simp [get_balance, pyGet, tryWrap, hs, bind, Except.bind]
          rw [hpass]
          exact h kvs rfl (by simpa using hs)
    | jnull => rfl
    | jbool b => rfl
    | jnum q => rfl
    | jstr s => rfl
    | jlist xs => rfl

theorem get_ticker_of_products_failure (symbol : String)
    (assetsR : Except String JVal) (tick : JVal → Except String JVal)
    (e : String) (hP : get_products assetsR = failureJ e) :
    get_ticker symbol assetsR tick = failureJ e := by
  simp [get_ticker, hP, tryWrap, pyTruthy, bind, Except.bind, failureJ, dictGet]

theorem get_ticker_of_products_success (symbol : String)
    (assetsR : Except String JVal) (tick : JVal → Except String JVal)
    (r : JVal) (hP : get_products assetsR = successEnv r) :
    get_ticker symbol assetsR tick =
      tryWrap (do
        let products ← pyIter r
        let product_id ← scan_for_product_id products symbol
        if isNone product_id then
          Except.ok (failureJ ("Product not found for symbol: " ++ symbol))
        else do
          let response ← tick product_id
          let succ ← pyGet response ("success") (.jbool false)
          if pyTruthy succ then do
            let t ← pyGet response ("result") (.jdict [])
            Except.ok (successEnv t)
          else
            Except.ok response) := by
  simp [get_ticker, hP, pyTruthy, bind, Except.bind, successEnv, dictGet]

theorem exactlyOne_get_ticker (symbol : String) (assetsR : Except String JVal)
    (tick : JVal → Except String JVal)
    (htick : ∀ v, PassthroughNormalized (tick v)) :
    exactlyOne (get_ticker symbol assetsR tick) = true := by
  rcases get_products_shape assetsR with ⟨e, hP⟩ | ⟨r, hP⟩
  · rw [get_ticker_of_products_failure symbol assetsR tick e hP]; simp
  · rw [get_ticker_of_products_success symbol assetsR tick r hP]
    cases h1 : pyIter r with
    | error e => simp [tryWrap, h1, bind, Except.bind]
    | ok products =>
        cases h2 : scan_for_product_id products symbol with
        | error e => simp [tryWrap, h1, h2, bind, Except.bind]
        | ok pid =>
            by_cases hn : isNone pid
            · simp [tryWrap, h1, h2, hn, bind, Except.bind]
            · cases h3 : tick pid with
              | error e => simp [tryWrap, h1, h2, hn, h3, bind, Except.bind]
              | ok v =>
                  cases v with
                  | jdict tkvs =>
                      by_cases ht : pyTruthy ((dictGet tkvs ("success")).getD (.jbool false))
                      · simp [tryWrap, h1, h2, hn, h3, ht, bind, Except.bind]
                      · simp [tryWrap, h1, h2, hn, h3, ht, bind, Except.bind]
                        exact htick pid tkvs h3 (by simpa using ht)
                  | jnull => simp [tryWrap, pyGet, h1, h2, hn, h3, bind, Except.bind]
                  | jbool b => simp [tryWrap, pyGet, h1, h2, hn, h3, bind, Except.bind]
                  | jnum q => simp [tryWrap, pyGet, h1, h2, hn, h3, bind, Except.bind]
                  | jstr s => simp [tryWrap, pyGet, h1, h2, hn, h3, bind, Except.bind]
                  | jlist xs => simp [tryWrap, pyGet, h1, h2, hn, h3, bind, Except.bind]

theorem balance_entry_step_mk (acc : List (String × JVal))
    (p : String × JVal × JVal × JVal) :
    balance_entry_step acc (mk_balance_entry p) =
      Except.ok (spec_balance_step acc p) := rfl

theorem balance_foldlM_spec (es : List (String × JVal × JVal × JVal)) :
    ∀ acc, (es.map mk_balance_entry).foldlM balance_entry_step acc =
      Except.ok (es.foldl spec_balance_step acc) := by
  induction es with
  | nil => intro acc; rfl
  | cons p rest ih =>
      intro acc
      simp only [List.map_cons, List.foldlM_cons, List.foldl_cons,
        balance_entry_step_mk, bind, Except.bind]
      exact ih (spec_balance_step acc p)

theorem get_balance_success_list (es : List (String × JVal × JVal × JVal)) :
    get_balance (Except.ok (.jdict [("success", .jbool true),
        ("result", .jlist (es.map mk_balance_entry))])) =
      successEnv (.jdict (spec_balance_mapping es)) := by
  simp [get_balance, pyGet, dictGet, pyTruthy, pyIter, tryWrap, bind,
    Except.bind, balance_foldlM_spec, spec_balance_mapping]

theorem scan_no_match (symbol : String) (products : List JVal)
    (h : ∀ p ∈ products, is_product_dict p = true ∧
      product_has_symbol p symbol = false) :
    scan_for_product_id products symbol = Except.ok .jnull := by
  induction products with
  | nil => rfl
  | cons p rest ih =>
      obtain ⟨hd, hs⟩ := h p (List.mem_cons_self p rest)
      have hrest := ih (fun q hq => h q (List.mem_cons_of_mem p hq))
      cases p with
      | jdict pkvs =>
          cases hsym : (dictGet pkvs ("symbol")).getD .jnull with
          | jstr t =>
              have hne : (t == symbol) = false := by
                have hx := hs
                simp only [product_has_symbol, hsym] at hx
                exact hx
              simp [scan_for_product_id, pyGet_jdict, bind, Except.bind,
                hsym, hne, hrest]
          | jnull =>
              simp [scan_for_product_id, pyGet_jdict, bind, Except.bind, hsym, hrest]
          | jbool b =>
              simp [scan_for_product_id, pyGet_jdict, bind, Except.bind, hsym, hrest]
          | jnum q =>
              simp [scan_for_product_id, pyGet_jdict, bind, Except.bind, hsym, hrest]
          | jlist xs =>
              simp [scan_for_product_id, pyGet_jdict, bind, Except.bind, hsym, hrest]
          | jdict dkvs =>
              simp [scan_for_product_id, pyGet_jdict, bind, Except.bind, hsym, hrest]
      | jnull => simp [is_product_dict] at hd
      | jbool b => simp [is_product_dict] at hd
      | jnum q => simp [is_product_dict] at hd
      | jstr s => simp [is_product_dict] at hd
      | jlist xs => simp [is_product_dict] at hd

theorem containsNotFound_product_msg (symbol : String) :
    containsNotFound ("Product not found for symbol: " ++ symbol) = true := by
  apply decide_eq_true
  refine ⟨("Product ").toList, (" for symbol: ").toList ++ symbol.toList, ?_⟩
  have h0 : ("Product not found for symbol: " ++ symbol).toList
      = ("Product not found for symbol: ").toList ++ symbol.toList := by
    simp [String.toList, String.data_append]
  have h1 : ("Product not found for symbol: ").toList
      = ("Product ").toList ++ ("not found").toList ++ (" for symbol: ").toList := by
    decide
  rw [h0, h1]
  simp

/-! ## Claim theorems -/

/-- Claim C1, counterexample: the claimed invariant "every adapter result
has exactly one of payload and message populated" fails on the venue
response `{"success": false, "error": "unauthorized"}` — `get_balance`
passes the falsy-success envelope through unchanged, and the returned
dictionary has neither a `result` payload nor an `error.message`. -/
theorem get_balance_can_lose_message :
    exactlyOne (get_balance (Except.ok (.jdict [("success", .jbool false),
      ("error", .jstr ("unauthorized"))]))) = false ∧
    hasPayload (get_balance (Except.ok (.jdict [("success", .jbool false),
      ("error", .jstr ("unauthorized"))]))) = false ∧
    hasMessage (get_balance (Except.ok (.jdict [("success", .jbool false),
      ("error", .jstr ("unauthorized"))]))) = false :=
  ⟨rfl, rfl, rfl⟩

/-- Claim C1, amended: every dict-returning adapter operation returns a
result with exactly one of the success payload and the failure message
populated, provided each venue failure envelope it passes through
unchanged itself satisfies that shape; results built by the adapter
(success envelopes, exception failures, adapter-authored errors) always
satisfy it unconditionally, and `get_products` needs no proviso at all.
(`test_connection` returns a bare boolean, not a result dictionary.) -/
theorem adapter_results_exactly_one
    (assetsR balR ordR : Except String JVal) (symbol : String)
    (product_id : Int) (side order_type : String) (quantity price : Rat)
    (venue : OrderArgs → Except String JVal)
    (tick : JVal → Except String JVal)
    (hbal : PassthroughNormalized balR)
    (hord : PassthroughNormalized ordR)
    (hven : ∀ a, PassthroughNormalized (venue a))
    (htick : ∀ v, PassthroughNormalized (tick v)) :
    exactlyOne (get_products assetsR) = true ∧
    exactlyOne (get_balance balR) = true ∧
    exactlyOne (get_orders ordR) = true ∧
    exactlyOne (get_account_info balR) = true ∧
    exactlyOne (place_order product_id side quantity price order_type venue) = true ∧
    exactlyOne (get_ticker symbol assetsR tick) = true :=
  ⟨exactlyOne_get_products assetsR,
   exactlyOne_get_balance balR hbal,
   exactlyOne_envelope_tail ordR (.jlist []) hord,
   exactlyOne_envelope_tail balR (.jdict []) hbal,
   exactlyOne_envelope_tail
     (venue (place_order_args product_id side order_type quantity price))
     (.jdict []) (hven _),
   exactlyOne_get_ticker symbol assetsR tick htick⟩

/-- Witness for the amended C1 theorem at concrete inputs. -/
theorem adapter_results_exactly_one_witness :
    exactlyOne (get_products (Except.ok (JVal.jlist []))) = true ∧
    exactlyOne (get_balance (Except.error ("x"))) = true ∧
    exactlyOne (get_orders (Except.error ("x"))) = true ∧
    exactlyOne (get_account_info (Except.error ("x"))) = true ∧
    exactlyOne (place_order 0 ("buy") 1 1 ("limit_order")
      (fun _ => Except.error ("x"))) = true ∧
    exactlyOne (get_ticker ("s") (Except.ok (JVal.jlist []))
      (fun _ => Except.error ("x"))) = true :=
  adapter_results_exactly_one (Except.ok (JVal.jlist [])) (Except.error ("x"))
    (Except.error ("x")) ("s") 0 ("buy") ("limit_order") 1 1
    (fun _ => Except.error ("x")) (fun _ => Except.error ("x"))
    (fun _ h => nomatch h) (fun _ h => nomatch h)
    (fun _ _ h => nomatch h) (fun _ _ h => nomatch h)

/-- Claim C2, counterexample: on the stub envelope
`{"success": true, "result": []}` the connection test returns success
(`True`, setting the connected flag), not the Failure the claim states. -/
theorem test_connection_c2_counterexample :
    test_connection false (Except.ok (.jdict [("success", .jbool true),
      ("result", .jlist [])])) = (true, true) ∧
    (test_connection false (Except.ok (.jdict [("success", .jbool true),
      ("result", .jlist [])]))).1 ≠ false :=
  ⟨rfl, by decide⟩

/-- Claim C2, amended: the envelope branch is decided by the `success`
flag alone — `{"success": true, "result": []}` yields success even though
the result list is empty; the non-empty-list rule applies only to bare
list responses, where an empty bare list does fail the check and leaves
the connected flag unchanged. -/
theorem test_connection_envelope_flag_dominates :
    test_connection false (Except.ok (.jdict [("success", .jbool true),
      ("result", .jlist [])])) = (true, true) ∧
    (∀ conn, test_connection conn (Except.ok (.jlist [])) = (false, conn)) :=
  ⟨rfl, fun _ => rfl⟩

/-- Claim C3, counterexample: when the venue call raises, `test_connection`
returns the bare boolean `False` (leaving the flag unchanged); the result
is not a dictionary and carries no `message`, so the exception text
`"boom"` is not surfaced as `Failure{message: str(e)}` for this
operation. -/
theorem test_connection_exception_no_message :
    test_connection true (Except.error ("boom")) = (false, true) := rfl

/-- Claim C3, amended: no adapter operation propagates an exception; every
dict-returning operation converts a raised exception into
`Failure{message: str(e)}` — including `get_ticker`, whether the products
call or the ticker endpoint raises — while `test_connection` converts it
into the boolean `False`. -/
theorem exceptions_caught_as_failures (e : String) (conn : Bool)
    (product_id : Int) (side order_type symbol : String)
    (quantity price : Rat) :
    get_balance (Except.error e) = failureJ e ∧
    get_products (Except.error e) = failureJ e ∧
    get_orders (Except.error e) = failureJ e ∧
    get_account_info (Except.error e) = failureJ e ∧
    place_order product_id side quantity price order_type
      (fun _ => Except.error e) = failureJ e ∧
    get_ticker symbol (Except.error e) (fun _ => Except.error e) = failureJ e ∧
    get_ticker ("B") (Except.ok (.jlist [.jdict [("symbol", .jstr ("B")),
      ("id", .jnum 5)]])) (fun _ => Except.error e) = failureJ e ∧
    test_connection conn (Except.error e) = (false, conn) :=
  ⟨rfl, rfl, rfl, rfl, rfl, rfl, rfl, rfl⟩

/-- Claim C5: on a success envelope, `get_balance` transforms the entry
list into a mapping keyed by each entry's `asset_symbol` carrying
`balance`, `reserved_balance` and `available_balance` (stated against the
spec-side mapping description), and in particular the single-entry BTC
envelope yields exactly the claimed success dictionary. -/
theorem get_balance_transforms_success :
    (∀ es : List (String × JVal × JVal × JVal),
      get_balance (Except.ok (.jdict [("success", .jbool true),
          ("result", .jlist (es.map mk_balance_entry))])) =
        successEnv (.jdict (spec_balance_mapping es))) ∧
    get_balance (Except.ok (.jdict [("success", .jbool true),
        ("result", .jlist [.jdict [("asset_symbol", .jstr ("BTC")),
          ("balance", .jnum 1), ("reserved_balance", .jnum 0),
          ("available_balance", .jnum 1)]])])) =
      successEnv (.jdict [("BTC", .jdict [("balance", .jnum 1),
        ("reserved_balance", .jnum 0), ("available_balance", .jnum 1)])]) :=
  ⟨get_balance_success_list, rfl⟩

/-- Claim C6: `get_balance` passes a falsy-success venue envelope through
unchanged, preserving the venue's error detail; in particular
`{"success": false, "error": {"message": "bad asset"}}` comes back
verbatim. -/
theorem get_balance_failure_passthrough :
    (∀ kvs : List (String × JVal),
      pyTruthy ((dictGet kvs ("success")).getD (.jbool false)) = false →
      get_balance (Except.ok (.jdict kvs)) = .jdict kvs) ∧
    get_balance (Except.ok (failureJ ("bad asset"))) = failureJ ("bad asset") := by
  constructor
  · intro kvs h
    simp [get_balance, pyGet, tryWrap, h, bind, Except.bind]
  · rfl

/-- Witness for the C6 theorem at a concrete falsy envelope. -/
theorem get_balance_failure_passthrough_witness :
    pyTruthy ((dictGet [("success", JVal.jbool false)] ("success")).getD
      (.jbool false)) = false ∧
    get_balance (Except.ok (.jdict [("success", .jbool false)])) =
      .jdict [("success", .jbool false)] :=
  ⟨rfl, get_balance_failure_passthrough.1 [("success", .jbool false)] rfl⟩

/-- Claim C7: when no product record in the catalog carries the symbol,
`get_ticker` fails with the adapter-authored message (which contains the
text "not found"), and the ticker endpoint is never consulted — the
result is identical for any two ticker callables. -/
theorem get_ticker_not_found (symbol : String) (assetsR : Except String JVal)
    (tick tick2 : JVal → Except String JVal) (r : JVal) (products : List JVal)
    (h1 : get_products assetsR = successEnv r)
    (h2 : pyIter r = Except.ok products)
    (h3 : ∀ p ∈ products, is_product_dict p = true ∧
      product_has_symbol p symbol = false) :
    get_ticker symbol assetsR tick =
      failureJ ("Product not found for symbol: " ++ symbol) ∧
    containsNotFound ("Product not found for symbol: " ++ symbol) = true ∧
    get_ticker symbol assetsR tick = get_ticker symbol assetsR tick2 := by
  have hmain : ∀ t : JVal → Except String JVal,
      get_ticker symbol assetsR t =
        failureJ ("Product not found for symbol: " ++ symbol) := by
    intro t
    rw [get_ticker_of_products_success symbol assetsR t r h1]
    simp [tryWrap, h2, scan_no_match symbol products h3, bind, Except.bind, isNone]
  exact ⟨hmain tick, containsNotFound_product_msg symbol,
    (hmain tick).trans (hmain tick2).symm⟩

/-- Witness for the C7 theorem: a one-product catalog without symbol XYZ,
under two different ticker callables. -/
theorem get_ticker_not_found_witness :
    get_ticker ("XYZ") (Except.ok (.jlist [.jdict [("symbol", .jstr ("BTCUSD")),
        ("id", .jnum 1)]])) (fun _ => Except.error ("t1")) =
      failureJ ("Product not found for symbol: " ++ "XYZ") ∧
    containsNotFound ("Product not found for symbol: " ++ "XYZ") = true ∧
    get_ticker ("XYZ") (Except.ok (.jlist [.jdict [("symbol", .jstr ("BTCUSD")),
        ("id", .jnum 1)]])) (fun _ => Except.error ("t1")) =
      get_ticker ("XYZ") (Except.ok (.jlist [.jdict [("symbol", .jstr ("BTCUSD")),
        ("id", .jnum 1)]])) (fun _ => Except.ok JVal.jnull) :=
  get_ticker_not_found ("XYZ")
    (Except.ok (.jlist [.jdict [("symbol", .jstr ("BTCUSD")), ("id", .jnum 1)]]))
    (fun _ => Except.error ("t1")) (fun _ => Except.ok JVal.jnull)
    (.jlist [.jdict [("symbol", .jstr ("BTCUSD")), ("id", .jnum 1)]])
    [.jdict [("symbol", .jstr ("BTCUSD")), ("id", .jnum 1)]]
    rfl rfl
    (by
      intro p hp
      simp only [List.mem_singleton] at hp
      subst hp
      exact ⟨rfl, rfl⟩)

/-- Claim C8: `place_order` forwards to the venue exactly the arguments
with `size` equal to the truncation of the given quantity — observed via
a recording venue stub — and truncation means `int()`: `1.9` becomes `1`,
and in general for nonnegative quantities the forwarded integer is the
floor (truncation, not rounding). -/
theorem place_order_truncates_quantity :
    (∀ (product_id : Int) (side : String) (quantity price : Rat)
      (order_type : String),
      place_order product_id side quantity price order_type record_venue =
        successEnv (encode_order_args
          ⟨product_id, side, order_type, pyInt quantity, price⟩)) ∧
    pyInt (19/10) = 1 ∧
    (∀ q : Rat, 0 ≤ q → ((pyInt q : Rat) ≤ q ∧ q < (pyInt q : Rat) + 1)) := by
  refine ⟨fun product_id side quantity price order_type => rfl, ?_, ?_⟩
  · norm_num [pyInt]
  · intro q hq
    simp only [pyInt, if_pos hq]
    exact ⟨Int.floor_le q, Int.lt_floor_add_one q⟩

/-- Witness for the C8 theorem at quantity 19/10. -/
theorem place_order_truncates_quantity_witness :
    (0:Rat) ≤ 19/10 ∧
    ((pyInt (19/10) : Rat) ≤ 19/10 ∧ (19/10:Rat) < (pyInt (19/10) : Rat) + 1) :=
  ⟨by norm_num, place_order_truncates_quantity.2.2 (19/10) (by norm_num)⟩

/-- Claim C9, counterexample: on the success envelope carrying the BTC
balance entry, `get_account_info` and `get_balance` return different
results — the former passes the raw entry list through, the latter builds
the symbol-keyed mapping. -/
theorem get_account_info_not_alias_counterexample :
    get_account_info (Except.ok (.jdict [("success", .jbool true),
      ("result", .jlist [.jdict [("asset_symbol", .jstr ("BTC")),
        ("balance", .jnum 1), ("reserved_balance", .jnum 0),
        ("available_balance", .jnum 1)]])])) ≠
    get_balance (Except.ok (.jdict [("success", .jbool true),
      ("result", .jlist [.jdict [("asset_symbol", .jstr ("BTC")),
        ("balance", .jnum 1), ("reserved_balance", .jnum 0),
        ("available_balance", .jnum 1)]])])) :=
  fun h => absurd (congrArg resultIsList h) (by decide)

/-- Claim C9, amended: `get_account_info` fetches balances for the
hardcoded asset id but is not an alias of `get_balance`: the two agree
whenever the venue reports failure or raises (no truthy-success dict),
while on a truthy-success envelope `get_account_info` returns the venue's
`result` payload raw, without the symbol-keyed transformation. -/
theorem get_account_info_raw_result (resp : Except String JVal) :
    ((∀ kvs, resp = Except.ok (.jdict kvs) →
        pyTruthy ((dictGet kvs ("success")).getD (.jbool false)) = false) →
      get_account_info resp = get_balance resp) ∧
    (∀ kvs r, resp = Except.ok (.jdict kvs) →
      pyTruthy ((dictGet kvs ("success")).getD (.jbool false)) = true →
      dictGet kvs ("result") = some r →
      get_account_info resp = successEnv r) := by
  constructor
  · intro h
    cases resp with
    | error e => rfl
    | ok v =>
        cases v with
        | jdict kvs =>
            have hf := h kvs rfl
            have h1 : get_account_info (Except.ok (.jdict kvs)) = .jdict kvs := by
              show envelope_tail (Except.ok (.jdict kvs)) (.jdict []) = .jdict kvs
              rw [envelope_tail_ok_dict, if_neg (by simp [hf])]
            have h2 : get_balance (Except.ok (.jdict kvs)) = .jdict kvs := by
              simp [get_balance, pyGet, tryWrap, hf, bind, Except.bind]
            rw [h1, h2]
        | jnull => rfl
        | jbool b => rfl
        | jnum q => rfl
        | jstr s => rfl
        | jlist xs => rfl
  · intro kvs r hres ht hr
    subst hres
    show envelope_tail (Except.ok (.jdict kvs)) (.jdict []) = successEnv r
    rw [envelope_tail_ok_dict, if_pos (by simp [ht]), hr]
    rfl

/-- Witness for the amended C9 theorem on the exception path. -/
theorem get_account_info_raw_result_witness :
    get_account_info (Except.error ("x")) = get_balance (Except.error ("x")) :=
  (get_account_info_raw_result (Except.error ("x"))).1 (fun _ h => nomatch h)

/-- Claim C10: the connected flag starts `False`; `test_connection` is the
only writer and only ever assigns `True` (the new flag is the old one
or-ed with the boolean result, so a failing test leaves it untouched);
every other operation neither reads nor writes it — its state-threaded
form returns the flag unchanged and a result independent of it. -/
theorem is_connected_flag_behavior :
    init_is_connected = false ∧
    (∀ (conn : Bool) (resp : Except String JVal),
      (test_connection conn resp).2 = (conn || (test_connection conn resp).1)) ∧
    (∀ (conn : Bool) (resp : Except String JVal),
      get_balance_st conn resp = (get_balance resp, conn)) ∧
    (∀ (conn : Bool) (resp : Except String JVal),
      get_products_st conn resp = (get_products resp, conn)) ∧
    (∀ (conn : Bool) (resp : Except String JVal),
      get_orders_st conn resp = (get_orders resp, conn)) ∧
    (∀ (conn : Bool) (resp : Except String JVal),
      get_account_info_st conn resp = (get_account_info resp, conn)) ∧
    (∀ (conn : Bool) (product_id : Int) (side : String) (quantity price : Rat)
      (order_type : String) (venue : OrderArgs → Except String JVal),
      place_order_st conn product_id side quantity price order_type venue =
        (place_order product_id side quantity price order_type venue, conn)) ∧
    (∀ (conn : Bool) (symbol : String) (assetsR : Except String JVal)
      (tick : JVal → Except String JVal),
      get_ticker_st conn symbol assetsR tick =
        (get_ticker symbol assetsR tick, conn)) := by
  refine ⟨rfl, ?_, fun _ _ => rfl, fun _ _ => rfl, fun _ _ => rfl, fun _ _ => rfl,
    fun _ _ _ _ _ _ _ => rfl, fun _ _ _ _ => rfl⟩
  intro conn resp
  cases resp with
  | error e => simp [test_connection]
  | ok v =>
      cases v with
      | jlist xs =>
          by_cases hx : 0 < xs.length
          · simp [test_connection, hx]
          · simp [test_connection, hx]
      | jdict kvs =>
          by_cases hs : pyTruthy ((dictGet kvs ("success")).getD (.jbool false))
          · simp [test_connection, hs]
          · simp [test_connection, hs]
      | jnull => simp [test_connection]
      | jbool b => simp [test_connection]
      | jnum q => simp [test_connection]
      | jstr s => simp [test_connection]

end Algobot
